import Mathlib

/-!
Verification development for the wokkel MUC client (`src/wokkel/muc.py`).

The Python module is shallowly embedded: the XML element tree (domish),
Jabber IDs, the room/occupant data model, the handler's registry, the
pending-request correlator and the inbound dispatch functions are
translated into executable Lean definitions.  Stateful Python code is
modelled by explicit state passing; a Python exception propagating out of
a handler is modelled by `Except.error` carrying a `PyErr`.
-/

namespace Wokkel

/-- Split a character list at the first occurrence of `sep`: returns the
part before it and, when `sep` occurs, the whole remainder after it
(later occurrences of `sep` stay inside the remainder).  This mirrors how
twisted's JID parsing slices an address string. -/
def splitFirst (sep : Char) : List Char → List Char × Option (List Char)
  | [] => ([], none)
  | c :: cs =>
    if c = sep then ([], some cs)
    else
      let r := splitFirst sep cs
      (c :: r.1, r.2)

/-- A Jabber ID `local@domain/resource`; `user` and `resource` are
optional, as in twisted's `jid.JID`. -/
structure JID where
  user : Option String
  host : String
  resource : Option String
  deriving Repr, DecidableEq

/-- Embedding of `jid.internJID` / twisted's JID string parsing: the
string is split at the first `/` (everything after it is the resource),
and the part before it at the first `@` (user before, host after). -/
def parseJID (s : String) : JID :=
  let p := splitFirst '/' s.toList
  let q := splitFirst '@' p.1
  match q.2 with
  | none => { user := none, host := String.mk p.1, resource := p.2.map String.mk }
  | some h => { user := some (String.mk q.1), host := String.mk h,
                resource := p.2.map String.mk }

/-- `JID.userhost()`: the bare `local@domain` form. -/
def JID.userhost (j : JID) : String :=
  match j.user with
  | none => j.host
  | some u => u ++ "@" ++ j.host

/-- `JID.full()`: the full form, equal to `userhost` when there is no
resource. -/
def JID.full (j : JID) : String :=
  match j.resource with
  | none => j.userhost
  | some r => j.userhost ++ "/" ++ r

/-- Embedding of a `domish.Element`: namespace URI, element name,
attribute dictionary, child elements, and the element's character data
(what Python's `unicode(element)` yields). -/
inductive Element : Type where
  | mk (uri : Option String) (name : String) (attrs : List (String × String))
       (children : List Element) (content : String)

def Element.uri : Element → Option String
  | .mk u _ _ _ _ => u

def Element.name : Element → String
  | .mk _ n _ _ _ => n

def Element.attrs : Element → List (String × String)
  | .mk _ _ a _ _ => a

def Element.children : Element → List Element
  | .mk _ _ _ c _ => c

def Element.content : Element → String
  | .mk _ _ _ _ s => s

/-- Python's `str.lower()` (ASCII case mapping, which covers every
nickname and JID in the sources), defined structurally over the string's
characters so that it evaluates inside the kernel. -/
def lowerStr (s : String) : String :=
  String.mk (s.toList.map Char.toLower)

/-- Python-dict lookup on an association list (`d.get(k)` / `d[k]`). -/
def dictGet {α : Type} (k : String) : List (String × α) → Option α
  | [] => none
  | (k', v) :: rest => if k' = k then some v else dictGet k rest

/-- Python-dict insertion `d[k] = v`: overwrite the existing binding for
`k` if present, otherwise append a new one. -/
def dictInsert {α : Type} (k : String) (v : α) : List (String × α) → List (String × α)
  | [] => [(k, v)]
  | (k', v') :: rest =>
    if k' = k then (k, v) :: rest else (k', v') :: dictInsert k v rest

/-- Python-dict deletion `del d[k]` (no-op when `k` is absent, matching
the guarded uses in the source). -/
def dictDrop {α : Type} (k : String) : List (String × α) → List (String × α)
  | [] => []
  | (k', v') :: rest =>
    if k' = k then rest else (k', v') :: dictDrop k rest

/-- `element.getAttribute(k)` with no default: `some` the value when
present. -/
def Element.getAttr (e : Element) (k : String) : Option String :=
  dictGet k e.attrs

/-- `element.hasAttribute(k)`. -/
def Element.hasAttr (e : Element) (k : String) : Bool :=
  (e.getAttr k).isSome

/-- `element.getAttribute(k, default)`. -/
def Element.getAttrD (e : Element) (k d : String) : String :=
  (e.getAttr k).getD d

/-- `element[k] = v`. -/
def Element.setAttr (e : Element) (k v : String) : Element :=
  .mk e.uri e.name (dictInsert k v e.attrs) e.children e.content

/-- domish attribute-style child access (`element.x`, `element.subject`):
the first child element with the given name.  For a name not starting
with an underscore, domish's `__getattr__` returns Python `None` when no
such child exists (it does not raise), modelled by `none`. -/
def Element.firstChild (e : Element) (n : String) : Option Element :=
  e.children.find? (fun c => c.name == n)

/-- Python `unicode(v)` applied to the result of domish child access:
the element's character data, or the string `"None"` when the access
yielded Python `None` (missing child).  The registered observers for the
groupchat/subject dispatchers require the child's presence, so the
`"None"` branch is unreachable there, but the embedding keeps domish's
actual semantics. -/
def unicodePy : Option Element → String
  | some e => e.content
  | none => "None"

/-- `element.addChild(c)` / `addElement`: append a child. -/
def Element.addChild (e c : Element) : Element :=
  .mk e.uri e.name e.attrs (e.children ++ [c]) e.content

/-- `addElement(name, None, content)`: a namespace-less text child. -/
def textElem (n s : String) : Element :=
  .mk none n [] [] s

/-- A Python exception escaping a modelled function. -/
inductive PyErr : Type where
  | attributeError
  | keyError (k : String)
  | exception (msg : String)
  deriving Repr, DecidableEq

/-! Namespace and constant registry (`muc.py` top level). -/

def NS_MUC : String := "http://jabber.org/protocol/muc"
def NS_MUC_USER : String := NS_MUC ++ "#user"
def NS_DELAY : String := "urn:xmpp:delay"
def NS_JABBER_DELAY : String := "jabber:x:delay"

/-- `DEFER_TIMEOUT = 30`, the default request timeout in seconds. -/
def DEFER_TIMEOUT : Nat := 30

/-! Room and occupant data model (`User`, `Room`). -/

/-- `muc.User`: an occupant of a room.  `show_` embeds the Python
attribute `show` (a Lean keyword). -/
structure User where
  nick : String
  user_jid : Option JID := none
  affiliation : String := "none"
  role : String := "none"
  status : Option String := none
  show_ : Option String := none
  deriving Repr, DecidableEq

/-- The dynamic type of `Room.status`: initialized to the integer `0`,
later overwritten by `_joinedRoom` with a status-code string or `None`. -/
inductive StatusVal : Type where
  | intV (n : Int)
  | strV (s : String)
  | noneV
  deriving Repr, DecidableEq

/-- `muc.Room`: a room the local entity has joined or is joining.  The
stored `entity_id` attribute is recomputed from `name`/`server`/`nick`
by `entityId()` at every site that changes `nick`, so it is embedded as
the derived function `Room.entityId` rather than a field. -/
structure Room where
  state : Option String
  name : String
  server : String
  nick : String
  status : StatusVal := .intV 0
  roster : List (String × User) := []
  deriving Repr, DecidableEq

/-- `Room.entityId()`: `jid.internJID(name + '@' + server + '/' + nick)`. -/
def Room.entityId (r : Room) : JID :=
  parseJID (r.name ++ "@" ++ r.server ++ "/" ++ r.nick)

/-- `Room.addUser(user)`: `roster[user.nick.lower()] = user`. -/
def Room.addUser (r : Room) (u : User) : Room :=
  { r with roster := dictInsert (lowerStr u.nick) u r.roster }

/-- `Room.inRoster(user)`: `roster.has_key(user.nick.lower())`. -/
def Room.inRoster (r : Room) (u : User) : Bool :=
  (dictGet (lowerStr u.nick) r.roster).isSome

/-- `Room.getUser(nick)`: `roster.get(nick.lower())`. -/
def Room.getUser (r : Room) (nick : String) : Option User :=
  dictGet (lowerStr nick) r.roster

/-- `Room.getUser` as called from dispatch with `room_jid.resource`,
which may be Python `None`: `None.lower()` raises `AttributeError`. -/
def Room.getUserPy (r : Room) (nick : Option String) : Except PyErr (Option User) :=
  match nick with
  | none => .error .attributeError
  | some n => .ok (r.getUser n)

/-- `Room.removeUser(user)`: delete by lower-cased nick when present. -/
def Room.removeUser (r : Room) (u : User) : Room :=
  if r.inRoster u then { r with roster := dictDrop (lowerStr u.nick) r.roster }
  else r

/-! Room registry.  In the source, `MUCClient` declares `rooms = {}` at
CLASS level (line 434); no method ever assigns `self.rooms`, so attribute
lookup on any instance resolves to the one class-attribute dictionary and
`self.rooms[key] = room` mutates that shared dictionary. -/

/-- The registry dictionary: lower-cased bare room JID to `Room`. -/
def Registry : Type := List (String × Room)

/-- `MUCClient._setRoom(room)`:
`self.rooms[room.entity_id.userhost().lower()] = room`. -/
def setRoomL (rooms : Registry) (r : Room) : Registry :=
  dictInsert (lowerStr r.entityId.userhost) r rooms

/-- `MUCClient._getRoom(room_jid)`:
`self.rooms.get(room_jid.userhost().lower())`. -/
def getRoomL (rooms : Registry) (j : JID) : Option Room :=
  dictGet (lowerStr j.userhost) rooms

/-- `MUCClient._removeRoom(room_jid)`. -/
def removeRoomL (rooms : Registry) (j : JID) : Registry :=
  dictDrop (lowerStr j.userhost) rooms

/-- One `MUCClient` instance, identified for the purpose of telling two
instances of the class apart; an instance holds no room storage of its
own because the source never creates an instance attribute for `rooms`. -/
structure MUCClientInstance where
  instanceId : Nat
  deriving Repr, DecidableEq

/-- The class-level state of `MUCClient`: the single `rooms` dictionary
shared by every instance in the process. -/
structure MUCClassState where
  rooms : Registry

/-- `self._setRoom(room)` executed through a given instance: `self.rooms`
resolves to the class attribute, so the write lands in the shared class
state regardless of which instance performed it. -/
def MUCClassState.setRoomVia (cls : MUCClassState) (_self : MUCClientInstance)
    (r : Room) : MUCClassState :=
  { cls with rooms := setRoomL cls.rooms r }

/-- `self._getRoom(room_jid)` executed through a given instance — reads
the shared class attribute. -/
def MUCClassState.getRoomVia (cls : MUCClassState) (_self : MUCClientInstance)
    (j : JID) : Option Room :=
  getRoomL cls.rooms j

/-! Presence builders. -/

/-- Modelled from the spec: the external `xmppim.AvailablePresence`
boundary builder (spec §4.4/§6, not under `src/`): an available presence
(no `type` attribute) addressed to the given JID's full form, with no
children when `show`/`statuses` are not supplied. -/
def availablePresence (dst : JID) : Element :=
  .mk none "presence" [("to", dst.full)] [] ""

/-- Modelled from the spec: the external `xmppim.UnavailablePresence`
boundary builder (spec §4.4/§6, not under `src/`): a presence with
`type='unavailable'` addressed to the given JID's full form. -/
def unavailablePresence (dst : JID) : Element :=
  .mk none "presence" [("to", dst.full), ("type", "unavailable")] [] ""

/-- `muc.BasicPresence(to)`: an available presence to which the source
adds an empty `x` extension element in the MUC namespace. -/
def BasicPresence (dst : JID) : Element :=
  (availablePresence dst).addChild (.mk (some NS_MUC) "x" [] [] "")

/-! Pending-request correlator (`MUCClient.sendDeferred`).  Deferreds are
identified by the numeric order of their allocation; `_deferreds` is the
pending list the source appends to.  Sending a stanza also records it in
an outbound trace so "nothing was sent" is expressible. -/

/-- How a deferred fails: either the timeout path of `sendDeferred` or a
protocol-level stanza error carrying the remote condition.  The two are
distinct constructors, as `xmlstream.TimeoutError` and
`error.StanzaError` are distinct Python types. -/
inductive DeferredFailure : Type where
  | timeout
  | stanzaError (condition : String)
  deriving Repr, DecidableEq

/-- The correlator state: the `_deferreds` pending list, a counter
allocating fresh deferred identities, and the stanzas sent so far on the
stream (`self.xmlstream.send`). -/
structure Correlator where
  deferreds : List Nat := []
  nextId : Nat := 0
  sent : List Element := []

/-- A `reactor.callLater(timeout, onTimeout)` registration made by
`sendDeferred`: the delay and the deferred its `onTimeout` closes over. -/
structure TimerCall where
  delay : Nat
  deferredId : Nat
  deriving Repr, DecidableEq

/-- `MUCClient.sendDeferred(obj, timeout)`: allocate a deferred, append
it to `_deferreds`, arm a timer for `timeout`, send `obj`, and return the
deferred to the caller. -/
def sendDeferred (c : Correlator) (obj : Element) (timeout : Nat) :
    Correlator × Nat × TimerCall :=
  ({ deferreds := c.deferreds ++ [c.nextId], nextId := c.nextId + 1,
     sent := c.sent ++ [obj] },
   c.nextId, { delay := timeout, deferredId := c.nextId })

/-- The list traversal inside `onTimeout`: walk `_deferreds`, pop the
entry equal to the timed-out deferred and fire its errback.  Deferred
objects are allocated fresh by `sendDeferred`, so the target occurs at
most once and removing the first occurrence is the loop's exact effect.
Returns the remaining list and whether the errback fired. -/
def onTimeoutLoop (d : Nat) : List Nat → List Nat × Bool
  | [] => ([], false)
  | x :: xs =>
    if x = d then (xs, true)
    else
      let r := onTimeoutLoop d xs
      (x :: r.1, r.2)

/-- `onTimeout` as armed by `sendDeferred`: remove the deferred from the
pending list and errback it with `xmlstream.TimeoutError`; when the
deferred is no longer pending nothing fires. -/
def onTimeout (c : Correlator) (d : Nat) : Correlator × Option DeferredFailure :=
  let r := onTimeoutLoop d c.deferreds
  ({ c with deferreds := r.1 }, if r.2 then some .timeout else none)

/-! The one-time observer patterns registered by `join`/`nick`/`status`/
`leave`: XPath `/presence[@from='...']` (plus `@type='unavailable'` for
`leave`) matched against inbound stanzas. -/

/-- Whether an inbound stanza matches `/presence[@from='<pat>']`:
element named `presence` whose `from` attribute is string-equal to the
pattern. -/
def presenceFromMatches (pat : String) (st : Element) : Bool :=
  st.name == "presence" && st.getAttr "from" == some pat

/-! Handler operations. -/

/-- Everything `MUCClient.join(server, room, nick)` does before
returning: the registered room, the presence sent through
`sendDeferred`, the `@from` pattern of the one-time observer, the new
correlator state, the deferred handed back, and the armed timer. -/
structure JoinCall where
  rooms : Registry
  presence : Element
  pattern : String
  correlator : Correlator
  deferredId : Nat
  timer : TimerCall

/-- `MUCClient.join`: create a `Room` in state `'joining'`, register it,
send `BasicPresence` to its occupant JID via `sendDeferred` with
`DEFER_TIMEOUT`, and register a one-time observer on
`/presence[@from='<occupant JID full form>']`. -/
def join (rooms : Registry) (c : Correlator) (server room nick : String) : JoinCall :=
  let r : Room := { state := some "joining", name := room, server := server, nick := nick }
  let rooms' := setRoomL rooms r
  let p := BasicPresence r.entityId
  let s := sendDeferred c p DEFER_TIMEOUT
  { rooms := rooms', presence := p, pattern := r.entityId.full,
    correlator := s.1, deferredId := s.2.1, timer := s.2.2 }

/-- What `_joinedRoom` does with the join deferred: `d.errback(prs)`
hands the deferred the raw presence element itself (not a
`StanzaError`); `d.callback(r)` resolves it with the room. -/
inductive JoinAction : Type where
  | errback (prs : Element)
  | callback (r : Room)

/-- `Room.status` after `r.status = status.getAttribute('code', None)`. -/
def statusOfCode : Option String → StatusVal
  | some c => .strV c
  | none => .noneV

/-- The `status` element `_joinedRoom` reads from the echo presence:
`getattr(prs.x, 'status', None)` — the first `status` child of the
first `x` child, `None` when either is missing (domish returns `None`
for a missing child, and `getattr(None, 'status', None)` is `None`). -/
def echoStatusElem (prs : Element) : Option Element :=
  (prs.firstChild "x").bind (fun x => x.firstChild "status")

/-- The status value a *fresh* join's room holds after `_joinedRoom`:
the echo's status-code capture when a `status` element is present,
otherwise the initial integer `0` the room was constructed with. -/
def statusCapture (prs : Element) : StatusVal :=
  match echoStatusElem prs with
  | some st => statusOfCode (st.getAttr "code")
  | none => .intV 0

/-- `MUCClient._joinedRoom(d, prs)`: parse the sender, errback the raw
stanza on `type='error'`, otherwise mark the registered room joined,
capture the status code from the `x` extension if any (leaving
`Room.status` untouched when the echo carries no `status` element), and
fire the deferred with the room.  The in-place mutation of the `Room`
aliased by the registry is modelled by writing the updated room back at
its key. -/
def joinedRoom (rooms : Registry) (prs : Element) :
    Except PyErr (JoinAction × Registry) :=
  match prs.getAttr "from" with
  | none => .error (.keyError "from")
  | some f =>
    let room_jid := parseJID f
    if prs.hasAttr "type" && prs.getAttrD "type" "" == "error" then
      .ok (.errback prs, rooms)
    else
      match getRoomL rooms room_jid with
      | none => .error (.exception "Room Not Found")
      | some r =>
        let r1 := { r with state := some "joined" }
        let r2 :=
          match echoStatusElem prs with
          | some st => { r1 with status := statusOfCode (st.getAttr "code") }
          | none => r1
        .ok (.callback r2, dictInsert (lowerStr room_jid.userhost) r2 rooms)

/-- `MUCClient.nick(room_jid, new_nick)`: raise `Exception('Room not
found')` when the room is not registered (before anything is sent);
otherwise update the room's nick, re-send `BasicPresence` to the
recomputed occupant JID, and register the observer for the echo.  The
second component is the correlator after the call, unchanged on the
raising path. -/
def nickOp (rooms : Registry) (c : Correlator) (room_jid : JID) (new_nick : String) :
    Except PyErr (Registry × Nat × String) × Correlator :=
  match getRoomL rooms room_jid with
  | none => (.error (.exception "Room not found"), c)
  | some r =>
    let r' := { r with nick := new_nick }
    let p := BasicPresence r'.entityId
    let s := sendDeferred c p DEFER_TIMEOUT
    (.ok (dictInsert (lowerStr r'.entityId.userhost) r' rooms, s.2.1, r'.entityId.full),
     s.1)

/-- `MUCClient.status(room_jid, show, status)`: raise `Exception('Room
not found')` when the room is not registered (before anything is sent);
otherwise send `BasicPresence` extended with optional `status`/`show`
text children and register the observer for the echo. -/
def statusOp (rooms : Registry) (c : Correlator) (room_jid : JID)
    (show_ status : Option String) :
    Except PyErr (Registry × Nat × String) × Correlator :=
  match getRoomL rooms room_jid with
  | none => (.error (.exception "Room not found"), c)
  | some r =>
    let p0 := BasicPresence r.entityId
    let p1 := match status with
      | some s => p0.addChild (textElem "status" s)
      | none => p0
    let p2 := match show_ with
      | some s => p1.addChild (textElem "show" s)
      | none => p1
    let s := sendDeferred c p2 DEFER_TIMEOUT
    (.ok (rooms, s.2.1, r.entityId.full), s.1)

/-- `MUCClient.leave(room_jid)`: `r = self._getRoom(room_jid)` without a
`None` check, then `UnavailablePresence(to=r.entity_id)` — when the room
is unknown the lookup yields `None` and the attribute access
`r.entity_id` raises `AttributeError` before any stanza is sent. -/
def leaveOp (rooms : Registry) (c : Correlator) (room_jid : JID) :
    Except PyErr (Registry × Nat × String) × Correlator :=
  match getRoomL rooms room_jid with
  | none => (.error .attributeError, c)
  | some r =>
    let p := unavailablePresence r.entityId
    let s := sendDeferred c p DEFER_TIMEOUT
    (.ok (rooms, s.2.1, r.entityId.full), s.1)

/-! Inbound dispatch. -/

/-- The hook invocation `_onGroupChat` ends in: either the stanza is
silently ignored, or `receivedGroupChat(room, user, body)`, or
`receivedHistory(room, user, body, stamp, frm)` — `user` is Python
`None` when the nick is not in the roster. -/
inductive GroupChatDispatch : Type where
  | ignored
  | groupChat (room : Room) (user : Option User) (body : String)
  | historyCall (room : Room) (user : Option User) (body : String)
      (stamp : String) (frm : Option String)

/-- `MUCClient._onGroupChat(msg)`: require `from`, resolve the room by
bare JID (ignore when unknown), look the occupant up by the sender's
resource (`room.getUser(room_jid.resource)` — an `AttributeError` when
the resource is absent), scan the children for a delay element in either
delay namespace (the last one found wins), take `unicode(msg.body)` (the
body's character data; the observer requires the `body` child), and
invoke the groupchat or history hook. -/
def onGroupChat (rooms : Registry) (msg : Element) :
    Except PyErr GroupChatDispatch :=
  if !msg.hasAttr "from" then .ok .ignored
  else
    let room_jid := parseJID (msg.getAttrD "from" "")
    match getRoomL rooms room_jid with
    | none => .ok .ignored
    | some room =>
      match room.getUserPy room_jid.resource with
      | .error e => .error e
      | .ok user =>
        let delay := msg.children.foldl
          (fun acc e =>
            if e.uri == some NS_DELAY || e.uri == some NS_JABBER_DELAY then some e
            else acc)
          none
        let body := unicodePy (msg.firstChild "body")
        match delay with
        | none => .ok (.groupChat room user body)
        | some dl =>
          match dl.getAttr "stamp" with
          | none => .error (.keyError "stamp")
          | some stamp => .ok (.historyCall room user body stamp (dl.getAttr "from"))

/-- The hook invocation `_onSubject` ends in: either the stanza is
ignored, or `receivedSubject(room_jid, subjectText)` — the source passes
the *sender JID* (full, resource included) as the first argument and no
occupant argument at all. -/
inductive SubjectDispatch : Type where
  | ignored
  | hookCall (roomArg : JID) (subjectArg : String)
  deriving Repr, DecidableEq

/-- `MUCClient._onSubject(msg)`: require `from`, resolve the room by
bare JID (ignore when unknown), then invoke
`self.receivedSubject(room_jid, unicode(msg.subject))` — the subject's
character data (the observer requires the `subject` child). -/
def onSubject (rooms : Registry) (msg : Element) :
    Except PyErr SubjectDispatch :=
  if !msg.hasAttr "from" then .ok .ignored
  else
    let room_jid := parseJID (msg.getAttrD "from" "")
    match getRoomL rooms room_jid with
    | none => .ok .ignored
    | some _room =>
      .ok (.hookCall room_jid (unicodePy (msg.firstChild "subject")))

/-! History resending. -/

/-- A wall-clock instant, as produced by `datetime.datetime.now()`. -/
structure DateTime where
  year : Nat
  month : Nat
  day : Nat
  hour : Nat
  minute : Nat
  second : Nat
  deriving Repr, DecidableEq

/-- Zero-pad to two digits (`%m`, `%d`, `%H`, `%M`, `%S`). -/
def pad2 (n : Nat) : String :=
  if n < 10 then "0" ++ toString n else toString n

/-- Zero-pad to four digits (`%Y`). -/
def pad4 (n : Nat) : String :=
  if n < 10 then "000" ++ toString n
  else if n < 100 then "00" ++ toString n
  else if n < 1000 then "0" ++ toString n
  else toString n

/-- `MUCClient._makeTimeStamp(stamp)`:
`stamp.strftime('%Y%m%dT%H:%M:%S')`. -/
def makeTimeStamp (stamp : DateTime) : String :=
  pad4 stamp.year ++ pad2 stamp.month ++ pad2 stamp.day ++ "T" ++
    pad2 stamp.hour ++ ":" ++ pad2 stamp.minute ++ ":" ++ pad2 stamp.second

/-- One iteration of `MUCClient.history(to, message_list)`: retype the
message as groupchat, read its original `to` (`m['to']`, a `KeyError`
when absent), redirect it to the room, and append a `delay` child whose
`stamp` is `self._makeTimeStamp()` — called with no argument, so the
stamp is `datetime.datetime.now()` at send time (`now`), not any
timestamp belonging to the entry — and whose `from` is the original
recipient. -/
def historyStep (now : DateTime) (dst : String) (m : Element) : Except PyErr Element :=
  let m1 := m.setAttr "type" "groupchat"
  match m1.getAttr "to" with
  | none => .error (.keyError "to")
  | some mto =>
    let _frm := m1.getAttr "from"
    let m2 := m1.setAttr "to" dst
    let d0 : Element := .mk (some NS_DELAY) "delay" [] [] ""
    let d1 := (d0.setAttr "stamp" (makeTimeStamp now)).setAttr "from" mto
    .ok (m2.addChild d1)

/-- `MUCClient.history(to, message_list)`: process and send each entry
in order; the result is the list of stanzas sent. -/
def history (now : DateTime) (dst : String) (message_list : List Element) :
    Except PyErr (List Element) :=
  message_list.mapM (historyStep now dst)

/-! Concrete fixtures, taken from the scenarios of the behavioural test
suite (`src/wokkel/test/test_muc.py`): room `test` at service
`conference.example.org`, local nick `Nick`. -/

/-- The room as created by the test helper: `Room('test',
'conference.example.org', 'Nick')`, state `None`. -/
def roomFixture : Room :=
  { state := none, name := "test", server := "conference.example.org", nick := "Nick" }

/-- A registry holding exactly the fixture room. -/
def registryFixture : Registry := setRoomL [] roomFixture

/-- The `error` child of a `forbidden` rejection presence. -/
def forbiddenError : Element :=
  .mk none "error" [("type", "auth")]
    [.mk (some "urn:ietf:params:xml:ns:xmpp-stanzas") "forbidden" [] [] ""] ""

/-- An error presence from the full occupant JID the join presence was
sent to. -/
def errPresenceFromOccupant : Element :=
  .mk none "presence"
    [("from", "test@conference.example.org/Nick"), ("type", "error")]
    [forbiddenError] ""

/-- The same error presence sent from the bare room JID instead. -/
def errPresenceFromRoom : Element :=
  .mk none "presence"
    [("from", "test@conference.example.org"), ("type", "error")]
    [forbiddenError] ""

/-- A groupchat message authored by the room itself: `from` is the bare
room JID, with a `body` child. -/
def groupChatFromRoom : Element :=
  .mk none "message"
    [("to", "test@test.com"), ("from", "test@conference.example.org"),
     ("type", "groupchat")]
    [textElem "body" "test"] ""

/-- A groupchat message with a `subject` child from occupant `Nick`. -/
def subjectMsg : Element :=
  .mk none "message"
    [("to", "test@example.org/Testing"),
     ("from", "test@conference.example.org/Nick"), ("type", "groupchat")]
    [textElem "subject" "test"] ""

/-- An archived one-to-one message as resent by `history`: originally
addressed to `testing@example.com`. -/
def archivedMsg : Element :=
  .mk none "message" [("to", "testing@example.com"), ("type", "chat")]
    [textElem "body" "test"] ""

/-- The wall-clock instant at which `history` is invoked in the
counterexample scenario. -/
def sendInstant : DateTime := ⟨2010, 1, 2, 3, 4, 5⟩

/-- The join self-echo presence used as a witness: from the occupant
JID, with the MUC-user extension carrying status code 201. -/
def joinEchoPresence : Element :=
  .mk none "presence" [("from", "test@conference.example.org/Nick")]
    [.mk (some NS_MUC_USER) "x" []
      [.mk none "item" [("affiliation", "member"), ("role", "participant")] [] "",
       .mk none "status" [("code", "201")] [] ""] ""] ""

/-- The canonical join-success echo of the repository's tests: a
presence from the occupant JID whose MUC-user extension carries only an
`item` child and no status code. -/
def joinEchoCanonical : Element :=
  .mk none "presence" [("from", "test@conference.example.org/Nick")]
    [.mk (some NS_MUC_USER) "x" []
      [.mk none "item" [("affiliation", "member"), ("role", "participant")] [] ""]
      ""] ""

/-- The invariant the spec states for rosters: every key is the
lower-casing of its occupant's nickname. -/
def rosterKeysLower (r : Room) : Prop :=
  ∀ p ∈ r.roster, p.1 = lowerStr p.2.nick

end Wokkel

namespace Wokkel

/-! Helper lemmas about the dictionary embedding. -/

theorem dictGet_insert_self {α : Type} (k : String) (v : α)
    (l : List (String × α)) : dictGet k (dictInsert k v l) = some v := by
  induction l with
  | nil => simp [dictInsert, dictGet]
  | cons hd tl ih =>
    by_cases h : hd.1 = k
    · simp [dictInsert, dictGet, h]
    · simpa [dictInsert, dictGet, h] using ih

theorem dictInsert_mem {α : Type} {p : String × α} {k : String} {v : α}
    {l : List (String × α)} : p ∈ dictInsert k v l → p = (k, v) ∨ p ∈ l := by
  induction l with
  | nil => intro h; simp [dictInsert] at h; exact Or.inl h
  | cons hd tl ih =>
    intro h
    by_cases hk : hd.1 = k
    · simp only [dictInsert, if_pos hk, List.mem_cons] at h
      rcases h with h | h
      · exact Or.inl h
      · exact Or.inr (List.mem_cons_of_mem _ h)
    · simp only [dictInsert, if_neg hk, List.mem_cons] at h
      rcases h with h | h
      · exact Or.inr (by simp [h])
      · rcases ih h with h' | h'
        · exact Or.inl h'
        · exact Or.inr (List.mem_cons_of_mem _ h')

theorem dictDrop_mem {α : Type} {p : String × α} {k : String}
    {l : List (String × α)} : p ∈ dictDrop k l → p ∈ l := by
  induction l with
  | nil => intro h; simp [dictDrop] at h
  | cons hd tl ih =>
    intro h
    by_cases hk : hd.1 = k
    · simp only [dictDrop, if_pos hk] at h
      exact List.mem_cons_of_mem _ h
    · simp only [dictDrop, if_neg hk, List.mem_cons] at h
      rcases h with h | h
      · simp [h]
      · exact List.mem_cons_of_mem _ (ih h)

theorem onTimeoutLoop_append_self (d : Nat) (l : List Nat) :
    d ∉ l → onTimeoutLoop d (l ++ [d]) = (l, true) := by
  induction l with
  | nil => intro _; simp [onTimeoutLoop]
  | cons x xs ih =>
    intro h
    have hx : x ≠ d := fun he => h (by simp [he])
    have hxs : d ∉ xs := fun he => h (List.mem_cons_of_mem _ he)
    simp [onTimeoutLoop, hx, ih hxs]

example : parseJID "test@conference.example.org/Nick" =
    { user := some "test", host := "conference.example.org", resource := some "Nick" } := by
  decide

example : (parseJID "test@conference.example.org").resource = none := by
  decide

example : JID.full ⟨some "test", "conference.example.org", some "Nick"⟩ =
    "test@conference.example.org/Nick" := by
  decide

end Wokkel

namespace Wokkel

/-- C1: the spec claims an error presence rejecting a join fails the
join deferred with a stanza error carrying the remote condition, whether
it arrives from the full occupant JID or from the bare room JID.  In the
source, the one-time observer `join` registers matches only
`/presence[@from='<full occupant JID>']`, so the error presence from the
bare room JID never reaches `_joinedRoom` and the deferred is not failed
by it; and even for the occupant-JID case `_joinedRoom` errbacks the raw
presence element (`d.errback(prs)`), not a stanza error carrying the
condition. -/
theorem joinError_observer_misses_bare_jid :
    (join [] {} "conference.example.org" "test" "Nick").pattern
        = "test@conference.example.org/Nick" ∧
    presenceFromMatches
      (join [] {} "conference.example.org" "test" "Nick").pattern
      errPresenceFromRoom = false ∧
    presenceFromMatches
      (join [] {} "conference.example.org" "test" "Nick").pattern
      errPresenceFromOccupant = true ∧
    joinedRoom (join [] {} "conference.example.org" "test" "Nick").rooms
      errPresenceFromOccupant
        = .ok (.errback errPresenceFromOccupant,
               (join [] {} "conference.example.org" "test" "Nick").rooms) :=
  ⟨rfl, rfl, rfl, rfl⟩

/-- C2: the spec claims the subject hook is invoked as
`receivedSubject(room, occupant, subjectText)`.  The source's
`_onSubject` resolves no occupant and invokes
`receivedSubject(room_jid, subjectText)` with the sender JID (resource
included) as first argument — evaluated here on a subject message from
occupant `Nick` of the registered fixture room. -/
theorem onSubject_passes_sender_jid_without_occupant :
    onSubject registryFixture subjectMsg
      = .ok (.hookCall
          { user := some "test", host := "conference.example.org",
            resource := some "Nick" } "test") :=
  rfl

/-- C3: the spec claims the room registry is per-instance state.  In the
source `rooms = {}` is a class attribute and no instance ever shadows
it, so a room registered through one `MUCClient` instance is visible to
lookups through any other instance. -/
theorem rooms_registry_shared_across_instances :
    (⟨0⟩ : MUCClientInstance) ≠ ⟨1⟩ ∧
    MUCClassState.getRoomVia
      (MUCClassState.setRoomVia ⟨[]⟩ ⟨0⟩ roomFixture) ⟨1⟩
      (parseJID "test@conference.example.org") = some roomFixture :=
  ⟨by decide, rfl⟩

/-- C4: the spec claims each resent history message carries a delay
stamped with the entry's own timestamp.  The source calls
`self._makeTimeStamp()` with no argument, so the stamp is the current
wall-clock time at send time: resending an entry whose own timestamp is
2002-10-13T23:58:37 at instant 2010-01-02T03:04:05 produces the stamp
`20100102T03:04:05`, not `20021013T23:58:37` (redirection to the room,
retyping, and the original recipient in the delay's `from` do match the
claim). -/
theorem history_stamps_now_not_entry_time :
    history sendInstant "test@conference.example.org" [archivedMsg]
      = .ok [.mk none "message"
              [("to", "test@conference.example.org"), ("type", "groupchat")]
              [textElem "body" "test",
               .mk (some NS_DELAY) "delay"
                 [("stamp", "20100102T03:04:05"),
                  ("from", "testing@example.com")] [] ""] ""] ∧
    makeTimeStamp sendInstant = "20100102T03:04:05" ∧
    makeTimeStamp ⟨2002, 10, 13, 23, 58, 37⟩ = "20021013T23:58:37" ∧
    ("20100102T03:04:05" : String) ≠ "20021013T23:58:37" :=
  ⟨rfl, rfl, rfl, by decide⟩

/-- C5: the spec claims a groupchat message authored by the room itself
(bare sender JID, no resource) is dispatched with "no occupant" and no
exception.  In the source `_onGroupChat` calls
`room.getUser(room_jid.resource)` with resource `None`, and
`Room.getUser` immediately evaluates `None.lower()`, raising
`AttributeError` before any hook is invoked. -/
theorem onGroupChat_bare_room_jid_raises :
    onGroupChat registryFixture groupChatFromRoom = .error .attributeError :=
  rfl

end Wokkel

namespace Wokkel

/-- C6: `nick` and `status` addressed to a room absent from the registry
raise `Exception('Room not found')` synchronously, before anything is
sent: the correlator (and with it the stream's outbound trace) is
returned unchanged. -/
theorem nick_status_unknown_room_fail_sync (rooms : Registry) (c : Correlator)
    (j : JID) (newNick : String) (sh st : Option String)
    (h : getRoomL rooms j = none) :
    nickOp rooms c j newNick = (.error (.exception "Room not found"), c) ∧
    statusOp rooms c j sh st = (.error (.exception "Room not found"), c) := by
  unfold nickOp statusOp
  rw [h]
  exact ⟨rfl, rfl⟩

/-- Witness for C6 at the fixture room JID and an empty registry. -/
theorem nick_status_unknown_room_fail_sync_witness :
    nickOp [] {} (parseJID "test@conference.example.org") "newNick"
        = (.error (.exception "Room not found"), {}) ∧
    statusOp [] {} (parseJID "test@conference.example.org") (some "xa")
        (some "testing MUC") = (.error (.exception "Room not found"), {}) :=
  nick_status_unknown_room_fail_sync [] {} (parseJID "test@conference.example.org")
    "newNick" (some "xa") (some "testing MUC") rfl

/-- C8: roster lookup is case-insensitive — adding an occupant whose
nickname is one casing and looking it up under any other casing with the
same lower-casing returns that occupant — and both roster operations
preserve the invariant that every roster key equals the lower-casing of
its occupant's nickname. -/
theorem roster_lookup_case_insensitive (r : Room) (u : User) (n : String)
    (h : lowerStr n = lowerStr u.nick) :
    (r.addUser u).getUser n = some u ∧
    (rosterKeysLower r → rosterKeysLower (r.addUser u)) ∧
    (∀ v : User, rosterKeysLower r → rosterKeysLower (r.removeUser v)) := by
  refine ⟨?_, ?_, ?_⟩
  · show dictGet (lowerStr n) (dictInsert (lowerStr u.nick) u r.roster) = some u
    rw [h]
    exact dictGet_insert_self _ _ _
  · intro hr p hp
    rcases dictInsert_mem hp with h' | h'
    · rw [h']
    · exact hr p h'
  · intro v hr p hp
    unfold Room.removeUser at hp
    by_cases hin : r.inRoster v
    · simp only [hin, if_pos] at hp
      exact hr p (dictDrop_mem hp)
    · simp only [hin] at hp
      exact hr p hp

/-- Witness for C8: occupant `Nick` added to the empty fixture roster
and looked up as `nIcK`. -/
theorem roster_lookup_case_insensitive_witness :
    (Room.addUser roomFixture { nick := "Nick" }).getUser "nIcK"
      = some { nick := "Nick" } :=
  (roster_lookup_case_insensitive roomFixture { nick := "Nick" } "nIcK"
    (by decide)).1

/-- C9: `join` arms its correlator timer with `DEFER_TIMEOUT` = 30 time
units for the deferred it returns; when no matching presence has
resolved the deferred, the timer's `onTimeout` fires the deferred's
errback with `TimeoutError` — a failure distinct from every stanza
error — and removes the entry from the handler's pending list. -/
theorem join_timeout_fails_with_timeout_error (rooms : Registry)
    (c : Correlator) (server room nick : String)
    (h : c.nextId ∉ c.deferreds) :
    (join rooms c server room nick).timer.delay = DEFER_TIMEOUT ∧
    DEFER_TIMEOUT = 30 ∧
    (join rooms c server room nick).timer.deferredId
        = (join rooms c server room nick).deferredId ∧
    (onTimeout (join rooms c server room nick).correlator
        (join rooms c server room nick).deferredId).2 = some .timeout ∧
    (∀ cond, (DeferredFailure.timeout : DeferredFailure) ≠ .stanzaError cond) ∧
    (onTimeout (join rooms c server room nick).correlator
        (join rooms c server room nick).deferredId).1.deferreds = c.deferreds ∧
    (join rooms c server room nick).deferredId ∉
      (onTimeout (join rooms c server room nick).correlator
        (join rooms c server room nick).deferredId).1.deferreds := by
  have hloop : onTimeoutLoop c.nextId (c.deferreds ++ [c.nextId])
      = (c.deferreds, true) := onTimeoutLoop_append_self _ _ h
  have e2 : (onTimeout (join rooms c server room nick).correlator
      (join rooms c server room nick).deferredId).2
      = (if (onTimeoutLoop c.nextId (c.deferreds ++ [c.nextId])).2 then
          some DeferredFailure.timeout else none) := rfl
  have e1 : (onTimeout (join rooms c server room nick).correlator
      (join rooms c server room nick).deferredId).1.deferreds
      = (onTimeoutLoop c.nextId (c.deferreds ++ [c.nextId])).1 := rfl
  refine ⟨rfl, rfl, rfl, ?_, ?_, ?_, ?_⟩
  · rw [e2, hloop]
    rfl
  · intro cond hcontra
    exact DeferredFailure.noConfusion hcontra
  · rw [e1, hloop]
  · rw [e1, hloop]
    exact h

/-- Witness for C9: a fresh handler joining the fixture room. -/
theorem join_timeout_fails_with_timeout_error_witness :
    (join [] {} "conference.example.org" "test" "Nick").timer.delay = 30 ∧
    (onTimeout (join [] {} "conference.example.org" "test" "Nick").correlator
        (join [] {} "conference.example.org" "test" "Nick").deferredId).2
      = some .timeout := by
  have h := join_timeout_fails_with_timeout_error [] {} "conference.example.org"
    "test" "Nick" (by simp)
  exact ⟨h.1.trans h.2.1, h.2.2.2.1⟩

/-- C10: `leave` on a room JID absent from the registry dereferences the
`None` returned by `_getRoom` (`r.entity_id`), raising `AttributeError`
before any stanza is sent — the caller gets a propagating exception, not
a deferred and not the typed "room not found" failure the other
operations raise. -/
theorem leave_unknown_room_raises_attribute_error (rooms : Registry)
    (c : Correlator) (j : JID) (h : getRoomL rooms j = none) :
    leaveOp rooms c j = (.error .attributeError, c) ∧
    PyErr.attributeError ≠ PyErr.exception "Room not found" := by
  unfold leaveOp
  rw [h]
  exact ⟨rfl, fun hc => PyErr.noConfusion hc⟩

/-- Witness for C10 at the fixture room JID and an empty registry. -/
theorem leave_unknown_room_raises_attribute_error_witness :
    leaveOp [] {} (parseJID "test@conference.example.org")
      = (.error .attributeError, {}) :=
  (leave_unknown_room_raises_attribute_error [] {}
    (parseJID "test@conference.example.org") rfl).1

end Wokkel

namespace Wokkel

/-- C7: `join` registers a `Room` in state `'joining'` under the
lower-cased bare room JID, sends an available presence carrying one
empty MUC-namespace `x` extension addressed to the computed occupant
JID, and registers its observer for exactly that JID; when any
non-error presence from that occupant JID arrives (`htype` is exactly
the negation of the code's error test), `_joinedRoom` sets the room's
state to `'joined'`, stores `statusCapture echo` — the echo's status
code when a `status` element is present, the room's initial `0`
otherwise — into `Room.status`, and fires the deferred with that room.
The hypothesis `hparse` states that the occupant-JID string parses back
into its three components (true whenever the room/server/nick names
contain no stray `/` or `@`, as checked by the witness). -/
theorem join_success_flow (rooms : Registry) (c : Correlator)
    (server room nick : String) (echo : Element)
    (hparse : parseJID (room ++ "@" ++ server ++ "/" ++ nick)
        = { user := some room, host := server, resource := some nick })
    (hfrom : echo.getAttr "from" = some (room ++ "@" ++ server ++ "/" ++ nick))
    (htype : (echo.hasAttr "type" && echo.getAttrD "type" "" == "error") = false) :
    getRoomL (join rooms c server room nick).rooms
        (parseJID (room ++ "@" ++ server ++ "/" ++ nick))
      = some ⟨some "joining", room, server, nick, .intV 0, []⟩ ∧
    (join rooms c server room nick).presence
      = Element.mk none "presence" [("to", room ++ "@" ++ server ++ "/" ++ nick)]
          [Element.mk (some NS_MUC) "x" [] [] ""] "" ∧
    (join rooms c server room nick).correlator.sent
      = c.sent ++ [(join rooms c server room nick).presence] ∧
    (join rooms c server room nick).pattern
      = room ++ "@" ++ server ++ "/" ++ nick ∧
    joinedRoom (join rooms c server room nick).rooms echo
      = .ok (.callback ⟨some "joined", room, server, nick, statusCapture echo, []⟩,
          dictInsert (lowerStr (room ++ "@" ++ server))
            ⟨some "joined", room, server, nick, statusCapture echo, []⟩
            (join rooms c server room nick).rooms) := by
  have hget : getRoomL (join rooms c server room nick).rooms
      (parseJID (room ++ "@" ++ server ++ "/" ++ nick))
      = some ⟨some "joining", room, server, nick, .intV 0, []⟩ := by
    simp only [join, setRoomL, getRoomL, Room.entityId, hparse, JID.userhost]
    exact dictGet_insert_self _ _ _
  refine ⟨hget, ?_, ?_, ?_, ?_⟩
  · simp only [join, BasicPresence, availablePresence, Element.addChild,
      Room.entityId, hparse, JID.full, JID.userhost, Element.uri, Element.name,
      Element.attrs, Element.children, Element.content, List.nil_append]
  · rfl
  · simp only [join, Room.entityId, hparse, JID.full, JID.userhost]
  · rw [hparse] at hget
    simp only [joinedRoom, hfrom, hparse, htype, Bool.false_eq_true, if_false,
      hget, JID.userhost, statusCapture]
    cases hbind : echoStatusElem echo with
    | none => simp [hbind]
    | some st => simp [hbind]

end Wokkel

namespace Wokkel

/-- Witness for C7: the fixture join (`test@conference.example.org`,
nick `Nick`) resolved by the echo presence carrying status code 201,
and by the repository's canonical status-free echo (an `x` extension
with only an `item` child), which leaves the status at the initial 0. -/
theorem join_success_flow_witness :
    joinedRoom (join [] {} "conference.example.org" "test" "Nick").rooms
        joinEchoPresence
      = .ok (.callback ⟨some "joined", "test", "conference.example.org", "Nick",
            .strV "201", []⟩,
          dictInsert (lowerStr "test@conference.example.org")
            ⟨some "joined", "test", "conference.example.org", "Nick", .strV "201", []⟩
            (join [] {} "conference.example.org" "test" "Nick").rooms) ∧
    joinedRoom (join [] {} "conference.example.org" "test" "Nick").rooms
        joinEchoCanonical
      = .ok (.callback ⟨some "joined", "test", "conference.example.org", "Nick",
            .intV 0, []⟩,
          dictInsert (lowerStr "test@conference.example.org")
            ⟨some "joined", "test", "conference.example.org", "Nick", .intV 0, []⟩
            (join [] {} "conference.example.org" "test" "Nick").rooms) := by
  have h1 := join_success_flow [] {} "conference.example.org" "test" "Nick"
    joinEchoPresence rfl rfl rfl
  have h2 := join_success_flow [] {} "conference.example.org" "test" "Nick"
    joinEchoCanonical rfl rfl rfl
  exact ⟨h1.2.2.2.2, h2.2.2.2.2⟩

end Wokkel
